import Mathlib

set_option maxRecDepth 100000

/-!
Verification development for the `ai-chat` repository: an Express server
exposing `POST /api/v1/chat` and `GET /api/v1/health`, an in-memory
conversation repository (`Map<string, string>`), and a React chat surface.

The server logic is embedded from `src/packages/server/index.ts` (the
monolithic handler) which behaves identically, for every property treated
here, to the controller/service split (`chat.controller` + `chat.service`):
the split revision writes the same `(conversationId, response.id)` pair to
the repository twice in a row (once in the service, once in the controller),
which is observably the same single write.
-/

/-! ## Conversation Ledger

Embeds `src/packages/server/repositories/conversation.repository.ts`:
a JS `Map<string, string>` with `get` and `set`.  A JS map is modelled as an
association list in insertion order; `set` updates an existing key in place
and appends a fresh key, exactly as `Map.prototype.set` does. -/

/-- State of the `conversations` map: association list in insertion order. -/
abbrev Ledger := List (String × String)

/-- Embeds `conversationRepository.get`: `Map.prototype.get`, `none` when absent. -/
def ledgerGet : Ledger → String → Option String
  | [], _ => none
  | (k, v) :: rest, id => if k = id then some v else ledgerGet rest id

/-- Embeds `conversationRepository.set`: `Map.prototype.set` updates the entry
in place when the key is present and appends a new entry otherwise. -/
def ledgerSet : Ledger → String → String → Ledger
  | [], id, v => [(id, v)]
  | (k, w) :: rest, id, v =>
    if k = id then (id, v) :: rest else (k, w) :: ledgerSet rest id v

/-- Keys currently present in the map. -/
def ledgerKeys (l : Ledger) : List String := l.map Prod.fst

/-- Each ConversationId has at most one entry. -/
def keysNodup (l : Ledger) : Prop := (ledgerKeys l).Nodup

instance (l : Ledger) : Decidable (keysNodup l) := by
  unfold keysNodup; infer_instance

/-! ## Request validation

Embeds the zod schema from `src/packages/server/index.ts`:

    const chatSchema = z.object({
      prompt: z.string().trim()
        .min(1, 'Prompt is required')
        .max(1000, 'Prompt must be less than 1000 characters'),
      conversationId: z.uuid(),
    })

`z.string().trim()` transforms the value with JS `String.prototype.trim`
before the `min`/`max` checks run, so the length bounds apply to the trimmed
string.  Request bodies are modelled with `Option String` fields: `none` is a
missing (or non-string) field. -/

/-- Whitespace recognised by JS `String.prototype.trim` (ASCII subset plus
NBSP and BOM; the exotic Unicode space separators are not exercised here). -/
def isJsWhitespace (c : Char) : Bool :=
  c = ' ' || c = '\t' || c = '\n' || c = '\r' ||
  c = Char.ofNat 11 || c = Char.ofNat 12 || c = Char.ofNat 160 || c = Char.ofNat 65279

/-- Embeds JS `String.prototype.trim`: strip leading and trailing whitespace. -/
def jsTrim (s : String) : String :=
  String.mk (((s.data.dropWhile isJsWhitespace).reverse.dropWhile isJsWhitespace).reverse)

/-- Hexadecimal digit, either case. -/
def isHexDigit (c : Char) : Bool :=
  c.isDigit || (Char.ofNat 97 ≤ c && c ≤ Char.ofNat 102) ||
  (Char.ofNat 65 ≤ c && c ≤ Char.ofNat 70)

/-- Embeds zod v4 `z.uuid()`: an RFC 9562 UUID — `8-4-4-4-12` hex groups with
version nibble `1`–`8` and variant nibble `8/9/a/b`, plus the nil and max
UUIDs admitted by zod's regex as special cases. -/
def isValidUUID (s : String) : Bool :=
  s = "00000000-0000-0000-0000-000000000000" ||
  s = "ffffffff-ffff-ffff-ffff-ffffffffffff" ||
  (s.data.length = 36 &&
    (List.range 36).all (fun i =>
      let c := s.data.getD i ' '
      if i = 8 || i = 13 || i = 18 || i = 23 then c = '-'
      else if i = 14 then Char.ofNat 49 ≤ c && c ≤ Char.ofNat 56
      else if i = 19 then
        c = '8' || c = '9' || c = 'a' || c = 'b' || c = 'A' || c = 'B'
      else isHexDigit c))

/-- Shape of the JSON body of `POST /api/v1/chat` as far as the schema looks
at it; `none` stands for a missing (or non-string) field. -/
structure ChatRequestBody where
  prompt : Option String
  conversationId : Option String
  deriving DecidableEq

/-- Issues zod records for the `prompt` field: type check, then `min(1)` and
`max(1000)` on the trimmed value, each with its configured message. -/
def promptIssues : Option String → List String
  | none => ["Invalid input: expected string, received undefined"]
  | some s =>
    (if (jsTrim s).length < 1 then ["Prompt is required"] else []) ++
    (if 1000 < (jsTrim s).length then ["Prompt must be less than 1000 characters"] else [])

/-- Issues zod records for the `conversationId` field. -/
def conversationIdIssues : Option String → List String
  | none => ["Invalid input: expected string, received undefined"]
  | some s => if isValidUUID s then [] else ["Invalid UUID"]

/-- Result of `z.treeifyError` on a failed parse: top-level errors plus
per-field error lists. -/
structure IssueTree where
  errors : List String
  promptErrors : List String
  conversationIdErrors : List String
  deriving DecidableEq

/-- Output of a successful `chatSchema.safeParse`: the `data` field, with the
prompt already trimmed by the `.trim()` transform. -/
structure ParsedChat where
  prompt : String
  conversationId : String
  deriving DecidableEq

/-- Embeds `chatSchema.safeParse` followed by `z.treeifyError` on failure. -/
def chatSchemaParse (b : ChatRequestBody) : Except IssueTree ParsedChat :=
  match b.prompt, b.conversationId with
  | some p, some c =>
    if promptIssues (some p) = [] ∧ conversationIdIssues (some c) = [] then
      Except.ok ⟨jsTrim p, c⟩
    else
      Except.error ⟨[], promptIssues (some p), conversationIdIssues (some c)⟩
  | p?, c? => Except.error ⟨[], promptIssues p?, conversationIdIssues c?⟩

/-- True when `chatSchema.safeParse` succeeds on the body. -/
def parseOk (b : ChatRequestBody) : Bool :=
  match chatSchemaParse b with
  | Except.ok _ => true
  | Except.error _ => false

/-! ## Provider and chat endpoint

Embeds the `POST /api/v1/chat` handler of `src/packages/server/index.ts`.
The external provider call `openai.responses.create({...})` is modelled as an
oracle outcome supplied to the step function: `ok` carries the response the
provider would return, `err` is any thrown/rejected failure. -/

/-- Argument object of `openai.responses.create` as built by the handler.
The temperature `0.2` is carried as the rational `1/5`. -/
structure ProviderRequest where
  model : String
  input : String
  temperature : ℚ
  max_output_tokens : Nat
  previous_response_id : Option String
  deriving DecidableEq

/-- Fields of the provider response the handler reads. -/
structure ProviderResponse where
  id : String
  output_text : String
  deriving DecidableEq

/-- Outcome of the awaited provider call: success value, or any rejection. -/
inductive ProviderResult where
  | ok (resp : ProviderResponse)
  | err
  deriving DecidableEq

/-- JSON bodies the server responds with. -/
inductive ResponseBody where
  | message (text : String)
  | failure (text : String)
  | issues (tree : IssueTree)
  | statusJson (s : String)
  deriving DecidableEq

/-- HTTP response: status code and JSON body. -/
structure HttpResponse where
  status : Nat
  body : ResponseBody
  deriving DecidableEq

/-- Observable effect of one request to `POST /api/v1/chat`: the HTTP
response, the ledger afterwards, the provider call made (`none` when the
provider was never invoked), and the keys read from the ledger. -/
structure StepResult where
  response : HttpResponse
  ledger : Ledger
  providerCall : Option ProviderRequest
  ledgerReads : List String
  deriving DecidableEq

/-- Embeds the `POST /api/v1/chat` handler: validate with
`chatSchema.safeParse` (400 with the treeified error on failure), destructure
the raw `req.body`, call the provider with the ledger's continuation token,
store the new response id on success (200 with the output text), and answer
500 with a generic message when the provider call fails. -/
def chatStep (l : Ledger) (b : ChatRequestBody) (outcome : ProviderResult) : StepResult :=
  match chatSchemaParse b with
  | Except.error tree => ⟨⟨400, ResponseBody.issues tree⟩, l, none, []⟩
  | Except.ok _ =>
    let prompt := b.prompt.getD ("")
    let conversationId := b.conversationId.getD ("")
    let req : ProviderRequest :=
      ⟨"gpt-4o-mini", prompt, 1 / 5, 50, ledgerGet l conversationId⟩
    match outcome with
    | ProviderResult.ok resp =>
      ⟨⟨200, ResponseBody.message resp.output_text⟩,
        ledgerSet l conversationId resp.id, some req, [conversationId]⟩
    | ProviderResult.err =>
      ⟨⟨500, ResponseBody.failure ("Failed to generate a response")⟩,
        l, some req, [conversationId]⟩

/-- Embeds the `GET /api/v1/health` handler of `health.router.ts`: respond
`200 (status "ok")`, with the server state (the ledger) passed through. -/
def healthHandler (l : Ledger) : HttpResponse × Ledger :=
  (⟨200, ResponseBody.statusJson ("ok")⟩, l)

/-! ## Traces of chat requests

Folding `chatStep` over a list of (body, provider outcome) pairs yields the
ledger after a run of the server that started with an empty map. -/

/-- Ledger after one chat request. -/
def chatStepLedger (l : Ledger) (step : ChatRequestBody × ProviderResult) : Ledger :=
  (chatStep l step.1 step.2).ledger

/-- Ledger after a sequence of chat requests starting from `l`. -/
def runTrace (l : Ledger) (steps : List (ChatRequestBody × ProviderResult)) : Ledger :=
  steps.foldl chatStepLedger l

/-- Response id a step stores for conversation `c`: present exactly when the
step passed validation with `conversationId = c` and the provider succeeded. -/
def stepSuccessId (c : String) (step : ChatRequestBody × ProviderResult) : Option String :=
  match chatSchemaParse step.1, step.2 with
  | Except.ok _, ProviderResult.ok r =>
    if step.1.conversationId = some c then some r.id else none
  | _, _ => none

/-- Response id of the most recent successful provider call for conversation
`c` in a list of steps (later steps win). -/
def lastSuccessId (c : String) : List (ChatRequestBody × ProviderResult) → Option String
  | [] => none
  | step :: rest =>
    match lastSuccessId c rest with
    | some v => some v
    | none => stepSuccessId c step

/-- Folding `ledgerSet` over a list of explicit set operations. -/
def applySets (ops : List (String × String)) (l : Ledger) : Ledger :=
  ops.foldl (fun acc op => ledgerSet acc op.1 op.2) l

/-- Value of the most recent set for key `id` in a list of set operations. -/
def lastSetValue (id : String) : List (String × String) → Option String
  | [] => none
  | op :: rest =>
    match lastSetValue id rest with
    | some v => some v
    | none => if op.1 = id then some op.2 else none

/-! ## Chat Surface

Embeds the client component `src/packages/client/src/components/chat/chat-bot.tsx`
(the revision in `chat-bot.tsx` at the components root has the identical
`onSubmit` control flow).  React state is the transcript, the typing flag and
the error banner; the axios call is an oracle outcome. -/

/-- Transcript entry role. -/
inductive Role where
  | user
  | assistant
  deriving DecidableEq

/-- Transcript entry: `{ role, content }`. -/
structure ChatMessage where
  role : Role
  content : String
  deriving DecidableEq

/-- Component state of the chat surface. -/
structure ChatSurfaceState where
  messages : List ChatMessage
  isAssistantTyping : Bool
  error : Option String
  deriving DecidableEq

/-- Outcome of the awaited `axios.post` relay call. -/
inductive RelayResult where
  | ok (message : String)
  | err
  deriving DecidableEq

/-- Embeds `onSubmit`: clear the error, raise the typing flag, append the
user turn optimistically, await the relay; on success append the assistant
turn, on failure set the error banner; the `finally` clears the typing flag
on every exit path. -/
def onSubmit (s : ChatSurfaceState) (prompt : String) (r : RelayResult) : ChatSurfaceState :=
  let s1 := { s with error := none }
  let s2 := { s1 with isAssistantTyping := true }
  let s3 := { s2 with messages := s2.messages ++ [(⟨Role.user, prompt⟩ : ChatMessage)] }
  let s4 :=
    match r with
    | RelayResult.ok m =>
      { s3 with messages := s3.messages ++ [(⟨Role.assistant, m⟩ : ChatMessage)] }
    | RelayResult.err => { s3 with error := some ("Something went wrong, try again later") }
  { s4 with isAssistantTyping := false }

/-- Keyboard event fields the input handler looks at. -/
structure KeyEvent where
  key : String
  shiftKey : Bool
  deriving DecidableEq

/-- What `handleKeyDown` did with the event: whether it triggered a
submission and whether it called `preventDefault` (when it did not, the
browser default applies — in a textarea, Enter inserts a literal newline). -/
structure KeyOutcome where
  submitted : Bool
  defaultPrevented : Bool
  deriving DecidableEq

/-- Embeds `handleKeyDown` of `chat-input.tsx` (identical in both chat-bot
revisions): on Enter without shift, prevent the default and submit the form;
otherwise do nothing. -/
def handleKeyDown (e : KeyEvent) : KeyOutcome :=
  if e.key = "Enter" ∧ e.shiftKey = false then ⟨true, true⟩ else ⟨false, false⟩

/-! ## Ledger lemmas -/

/-- Setting a key makes `get` return the new value at that key. -/
theorem ledgerGet_set_same (l : Ledger) (id v : String) :
    ledgerGet (ledgerSet l id v) id = some v := by
  induction l with
  | nil => simp [ledgerSet, ledgerGet]
  | cons hd tl ih =>
    obtain ⟨k, w⟩ := hd
    by_cases hk : k = id <;> simp [ledgerSet, ledgerGet, hk, ih]

/-- Setting a key leaves `get` at every other key unchanged. -/
theorem ledgerGet_set_other (l : Ledger) (id id' v : String) (h : id' ≠ id) :
    ledgerGet (ledgerSet l id v) id' = ledgerGet l id' := by
  induction l with
  | nil => simp [ledgerSet, ledgerGet, Ne.symm h]
  | cons hd tl ih =>
    obtain ⟨k, w⟩ := hd
    by_cases hk : k = id
    · subst hk
      simp [ledgerSet, ledgerGet, Ne.symm h]
    · simp [ledgerSet, ledgerGet, hk, ih]

/-- Membership in the key set after a `set`. -/
theorem mem_keys_set (l : Ledger) (id v a : String) :
    a ∈ ledgerKeys (ledgerSet l id v) ↔ a ∈ ledgerKeys l ∨ a = id := by
  induction l with
  | nil => simp [ledgerSet, ledgerKeys]
  | cons hd tl ih =>
    obtain ⟨k, w⟩ := hd
    by_cases hk : k = id
    · subst hk
      simp [ledgerSet, ledgerKeys]
      tauto
    · simp [ledgerSet, ledgerKeys, hk] at ih ⊢
      tauto

/-- A `set` preserves key uniqueness. -/
theorem keysNodup_set (l : Ledger) (id v : String) (h : keysNodup l) :
    keysNodup (ledgerSet l id v) := by
  induction l with
  | nil => simp [ledgerSet, keysNodup, ledgerKeys]
  | cons hd tl ih =>
    obtain ⟨k, w⟩ := hd
    unfold keysNodup ledgerKeys at h
    simp only [List.map_cons, List.nodup_cons] at h
    obtain ⟨hk_not, htl⟩ := h
    by_cases hk : k = id
    · subst hk
      unfold keysNodup ledgerKeys
      simp [ledgerSet, hk_not, htl]
    · unfold keysNodup ledgerKeys
      simp only [ledgerSet, hk, if_false, List.map_cons, List.nodup_cons]
      constructor
      · intro hmem
        rcases (mem_keys_set tl id v k).mp hmem with hin | heq
        · exact hk_not hin
        · exact hk heq
      · exact ih htl

/-- The key set of the empty ledger is duplicate-free. -/
theorem keysNodup_nil : keysNodup ([] : Ledger) := by
  simp [keysNodup, ledgerKeys]

/-- A sequence of sets preserves key uniqueness. -/
theorem keysNodup_applySets (ops : List (String × String)) :
    ∀ l : Ledger, keysNodup l → keysNodup (applySets ops l) := by
  induction ops with
  | nil => intro l h; simpa [applySets] using h
  | cons op rest ih =>
    intro l h
    simp only [applySets, List.foldl_cons] at ih ⊢
    exact ih _ (keysNodup_set l op.1 op.2 h)

/-- After a sequence of sets, `get` returns the most recent value set for the
key, falling back to the initial ledger when the key was never set. -/
theorem applySets_get (ops : List (String × String)) :
    ∀ (l : Ledger) (id : String),
      ledgerGet (applySets ops l) id =
        match lastSetValue id ops with
        | some v => some v
        | none => ledgerGet l id := by
  induction ops with
  | nil => intro l id; simp [applySets, lastSetValue]
  | cons op rest ih =>
    intro l id
    simp only [applySets, List.foldl_cons] at ih ⊢
    rw [show lastSetValue id (op :: rest) =
        (match lastSetValue id rest with
         | some v => some v
         | none => if op.1 = id then some op.2 else none) from rfl]
    rw [ih (ledgerSet l op.1 op.2) id]
    cases lastSetValue id rest with
    | some v => simp
    | none =>
      by_cases hk : op.1 = id
      · subst hk
        simp [ledgerGet_set_same]
      · simp [hk, ledgerGet_set_other l op.1 id op.2 (Ne.symm hk)]

/-! ## Validation lemmas -/

/-- The prompt field validates exactly when the trimmed length is in 1..1000. -/
theorem promptIssues_eq_nil (p : String) :
    promptIssues (some p) = [] ↔ 1 ≤ (jsTrim p).length ∧ (jsTrim p).length ≤ 1000 := by
  constructor
  · intro h
    by_cases h1 : (jsTrim p).length < 1
    · simp [promptIssues, h1] at h
    · by_cases h2 : 1000 < (jsTrim p).length
      · simp [promptIssues, h1, h2] at h
      · omega
  · intro h
    have h1 : ¬(jsTrim p).length < 1 := by omega
    have h2 : ¬1000 < (jsTrim p).length := by omega
    simp [promptIssues, h1, h2]

/-- The conversationId field validates exactly when the string is a UUID. -/
theorem conversationIdIssues_eq_nil (c : String) :
    conversationIdIssues (some c) = [] ↔ isValidUUID c = true := by
  cases h : isValidUUID c <;> simp [conversationIdIssues, h]

/-- A body whose trimmed prompt has length 1..1000 and whose conversationId
is a UUID parses successfully, to the trimmed prompt. -/
theorem chatSchemaParse_ok (p c : String) (h1 : 1 ≤ (jsTrim p).length)
    (h2 : (jsTrim p).length ≤ 1000) (h3 : isValidUUID c = true) :
    chatSchemaParse ⟨some p, some c⟩ = Except.ok ⟨jsTrim p, c⟩ := by
  have hred : chatSchemaParse ⟨some p, some c⟩ =
      if promptIssues (some p) = [] ∧ conversationIdIssues (some c) = [] then
        Except.ok ⟨jsTrim p, c⟩
      else
        Except.error ⟨[], promptIssues (some p), conversationIdIssues (some c)⟩ := rfl
  rw [hred, if_pos]
  exact ⟨(promptIssues_eq_nil p).mpr ⟨h1, h2⟩, (conversationIdIssues_eq_nil c).mpr h3⟩

/-- Shape of a body on which the schema succeeds: both fields present, the
trimmed prompt length in 1..1000, the conversationId a UUID, and the parsed
data the trimmed prompt with the untouched conversationId. -/
theorem chatSchemaParse_ok_shape (b : ChatRequestBody) (parsed : ParsedChat)
    (h : chatSchemaParse b = Except.ok parsed) :
    ∃ p c, b.prompt = some p ∧ b.conversationId = some c ∧
      1 ≤ (jsTrim p).length ∧ (jsTrim p).length ≤ 1000 ∧ isValidUUID c = true ∧
      parsed = ⟨jsTrim p, c⟩ := by
  obtain ⟨p?, c?⟩ := b
  cases p? with
  | none => simp [chatSchemaParse] at h
  | some p =>
    cases c? with
    | none => simp [chatSchemaParse] at h
    | some c =>
      simp only [chatSchemaParse] at h
      split at h
      · rename_i hcond
        obtain ⟨hp, hc⟩ := hcond
        obtain ⟨hp1, hp2⟩ := (promptIssues_eq_nil p).mp hp
        refine ⟨p, c, rfl, rfl, hp1, hp2, (conversationIdIssues_eq_nil c).mp hc, ?_⟩
        cases h
        rfl
      · cases h

/-- The schema fails on any body with a missing prompt, a whitespace-only
prompt, a missing conversationId, or a non-UUID conversationId. -/
theorem chatSchemaParse_error_of (b : ChatRequestBody)
    (h : b.prompt = none ∨ (∃ p, b.prompt = some p ∧ jsTrim p = "") ∨
      b.conversationId = none ∨
      (∃ c, b.conversationId = some c ∧ isValidUUID c = false)) :
    ∃ tree, chatSchemaParse b = Except.error tree := by
  cases hparse : chatSchemaParse b with
  | error tree => exact ⟨tree, rfl⟩
  | ok parsed =>
    exfalso
    obtain ⟨p, c, hp, hc, h1, _, h3, _⟩ := chatSchemaParse_ok_shape b parsed hparse
    rcases h with hpn | ⟨p0, hp0, htrim⟩ | hcn | ⟨c0, hc0, hu⟩
    · rw [hp] at hpn; cases hpn
    · rw [hp] at hp0
      cases hp0
      rw [htrim] at h1
      simp [String.length] at h1
    · rw [hc] at hcn; cases hcn
    · rw [hc] at hc0
      cases hc0
      rw [h3] at hu
      cases hu

/-! ## Trace lemmas -/

/-- Ledger effect of one chat request on one conversation key: the stored id
when the step was a validated success for that key, unchanged otherwise. -/
theorem chatStep_ledgerGet (l : Ledger) (b : ChatRequestBody) (o : ProviderResult) (c : String) :
    ledgerGet (chatStep l b o).ledger c =
      match stepSuccessId c (b, o) with
      | some v => some v
      | none => ledgerGet l c := by
  cases hparse : chatSchemaParse b with
  | error tree => simp [chatStep, stepSuccessId, hparse]
  | ok parsed =>
    obtain ⟨p, c0, hp, hc, _, _, _, _⟩ := chatSchemaParse_ok_shape b parsed hparse
    cases o with
    | err => simp [chatStep, stepSuccessId, hparse]
    | ok r =>
      simp only [chatStep, stepSuccessId, hparse, hc, Option.getD_some]
      by_cases hcc : c0 = c
      · subst hcc
        simp [ledgerGet_set_same]
      · rw [ledgerGet_set_other l c0 c r.id (Ne.symm hcc)]
        simp only [Option.some.injEq]
        rw [if_neg hcc]

/-- After a run of chat requests, each conversation key holds the id of its
most recent validated successful request, falling back to the initial ledger. -/
theorem runTrace_get (steps : List (ChatRequestBody × ProviderResult)) :
    ∀ (l : Ledger) (c : String),
      ledgerGet (runTrace l steps) c =
        match lastSuccessId c steps with
        | some v => some v
        | none => ledgerGet l c := by
  induction steps with
  | nil => intro l c; simp [runTrace, lastSuccessId]
  | cons step rest ih =>
    intro l c
    obtain ⟨b, o⟩ := step
    simp only [runTrace, List.foldl_cons] at ih ⊢
    rw [show lastSuccessId c ((b, o) :: rest) =
        (match lastSuccessId c rest with
         | some v => some v
         | none => stepSuccessId c (b, o)) from rfl]
    rw [ih (chatStepLedger l (b, o)) c]
    cases lastSuccessId c rest with
    | some v => simp
    | none =>
      simp only [chatStepLedger]
      exact chatStep_ledgerGet l b o c

/-! ## Helper facts about parsing -/

/-- A body accepted by `parseOk` has a successful parse result. -/
theorem parseOk_exists (b : ChatRequestBody) (h : parseOk b = true) :
    ∃ parsed, chatSchemaParse b = Except.ok parsed := by
  unfold parseOk at h
  cases hparse : chatSchemaParse b with
  | error tree => rw [hparse] at h; simp at h
  | ok parsed => exact ⟨parsed, rfl⟩

/-- The schema fails whenever the prompt field records an issue. -/
theorem chatSchemaParse_error_of_promptIssues (b : ChatRequestBody)
    (h : promptIssues b.prompt ≠ []) :
    ∃ tree, chatSchemaParse b = Except.error tree := by
  cases hparse : chatSchemaParse b with
  | error tree => exact ⟨tree, rfl⟩
  | ok parsed =>
    exfalso
    obtain ⟨p, c, hp, hc, h1, h2, h3, _⟩ := chatSchemaParse_ok_shape b parsed hparse
    apply h
    rw [hp]
    exact (promptIssues_eq_nil p).mpr ⟨h1, h2⟩

/-! ## Claims -/

/-- C1: for every request that passes validation, a provider failure makes the
chat endpoint respond 500 with body `(error "Failed to generate a response")`
and leaves the Ledger exactly as it was — no write happens before the provider
call succeeds. -/
theorem chat_provider_failure_500_no_write (l : Ledger) (b : ChatRequestBody)
    (h : parseOk b = true) :
    (chatStep l b ProviderResult.err).response =
      ⟨500, ResponseBody.failure ("Failed to generate a response")⟩ ∧
    (chatStep l b ProviderResult.err).ledger = l := by
  obtain ⟨parsed, hparse⟩ := parseOk_exists b h
  constructor
  · simp [chatStep, hparse]
  · simp [chatStep, hparse]

/-- C1 witness. -/
theorem chat_provider_failure_500_no_write_witness :
    (chatStep [] ⟨some ("Hello"), some ("123e4567-e89b-12d3-a456-426614174000")⟩
        ProviderResult.err).response =
      ⟨500, ResponseBody.failure ("Failed to generate a response")⟩ ∧
    (chatStep [] ⟨some ("Hello"), some ("123e4567-e89b-12d3-a456-426614174000")⟩
        ProviderResult.err).ledger = [] :=
  chat_provider_failure_500_no_write []
    ⟨some ("Hello"), some ("123e4567-e89b-12d3-a456-426614174000")⟩ (by decide)

/-- C2: for two sequential successful chat calls with the same conversationId,
the second provider invocation carries `previous_response_id` equal to the
response id the provider returned on the first call; and the first call for a
conversationId the ledger has never seen carries no continuation context. -/
theorem conversation_continuity (l : Ledger) (b1 b2 : ChatRequestBody) (c : String)
    (r1 r2 : ProviderResponse)
    (h1 : parseOk b1 = true) (h2 : parseOk b2 = true)
    (hc1 : b1.conversationId = some c) (hc2 : b2.conversationId = some c) :
    ((chatStep (chatStep l b1 (ProviderResult.ok r1)).ledger b2
        (ProviderResult.ok r2)).providerCall.map
      ProviderRequest.previous_response_id) = some (some r1.id) ∧
    (ledgerGet l c = none →
      ((chatStep l b1 (ProviderResult.ok r1)).providerCall.map
        ProviderRequest.previous_response_id) = some none) := by
  obtain ⟨p1, hp1⟩ := parseOk_exists b1 h1
  obtain ⟨p2, hp2⟩ := parseOk_exists b2 h2
  constructor
  · simp only [chatStep, hp1, hp2, hc1, hc2, Option.getD_some, Option.map_some']
    rw [ledgerGet_set_same]
  · intro hnone
    simp only [chatStep, hp1, hc1, Option.getD_some, Option.map_some']
    rw [hnone]

/-- C2 witness. -/
theorem conversation_continuity_witness :
    ((chatStep
        (chatStep [] ⟨some ("Hello"), some ("123e4567-e89b-12d3-a456-426614174000")⟩
          (ProviderResult.ok ⟨"r1", "Hi there"⟩)).ledger
        ⟨some ("How are you"), some ("123e4567-e89b-12d3-a456-426614174000")⟩
        (ProviderResult.ok ⟨"r2", "Fine"⟩)).providerCall.map
      ProviderRequest.previous_response_id) = some (some ("r1")) ∧
    ((chatStep [] ⟨some ("Hello"), some ("123e4567-e89b-12d3-a456-426614174000")⟩
        (ProviderResult.ok ⟨"r1", "Hi there"⟩)).providerCall.map
      ProviderRequest.previous_response_id) = some none := by
  have h := conversation_continuity []
    ⟨some ("Hello"), some ("123e4567-e89b-12d3-a456-426614174000")⟩
    ⟨some ("How are you"), some ("123e4567-e89b-12d3-a456-426614174000")⟩
    ("123e4567-e89b-12d3-a456-426614174000") ⟨"r1", "Hi there"⟩ ⟨"r2", "Fine"⟩
    (by decide) (by decide) rfl rfl
  exact ⟨h.1, h.2 rfl⟩

/-- C3: a valid request (trimmed prompt length 1..1000, conversationId a valid
UUID) on which the provider succeeds with id `rid` and text `t` gets a 200
response with body `(message t)`, and the Ledger afterwards maps the
conversationId to `rid`. -/
theorem chat_success_200_and_ledger_write (l : Ledger) (p c rid t : String)
    (h1 : 1 ≤ (jsTrim p).length) (h2 : (jsTrim p).length ≤ 1000)
    (h3 : isValidUUID c = true) :
    (chatStep l ⟨some p, some c⟩ (ProviderResult.ok ⟨rid, t⟩)).response =
      ⟨200, ResponseBody.message t⟩ ∧
    ledgerGet (chatStep l ⟨some p, some c⟩ (ProviderResult.ok ⟨rid, t⟩)).ledger c =
      some rid := by
  have hparse := chatSchemaParse_ok p c h1 h2 h3
  constructor
  · simp [chatStep, hparse]
  · simp only [chatStep, hparse, Option.getD_some]
    exact ledgerGet_set_same l c rid

/-- C3 witness, the end-to-end scenario of the specification. -/
theorem chat_success_200_and_ledger_write_witness :
    (chatStep [] ⟨some ("Hello"), some ("123e4567-e89b-12d3-a456-426614174000")⟩
        (ProviderResult.ok ⟨"r1", "Hi there"⟩)).response =
      ⟨200, ResponseBody.message ("Hi there")⟩ ∧
    ledgerGet (chatStep []
        ⟨some ("Hello"), some ("123e4567-e89b-12d3-a456-426614174000")⟩
        (ProviderResult.ok ⟨"r1", "Hi there"⟩)).ledger
      ("123e4567-e89b-12d3-a456-426614174000") = some ("r1") :=
  chat_success_200_and_ledger_write [] ("Hello")
    ("123e4567-e89b-12d3-a456-426614174000") ("r1") ("Hi there")
    (by decide) (by decide) (by decide)

/-- C4: a request with a missing prompt, a prompt that is empty after
trimming, a missing conversationId, or a conversationId that is not a valid
UUID gets a 400 response carrying the field-level issue tree; the provider is
never invoked and the Ledger is neither read nor written. -/
theorem chat_validation_failure_400 (l : Ledger) (b : ChatRequestBody)
    (o : ProviderResult)
    (h : b.prompt = none ∨ (∃ p, b.prompt = some p ∧ jsTrim p = "") ∨
      b.conversationId = none ∨
      (∃ c, b.conversationId = some c ∧ isValidUUID c = false)) :
    (chatStep l b o).response.status = 400 ∧
    (∃ tree, (chatStep l b o).response.body = ResponseBody.issues tree) ∧
    (chatStep l b o).providerCall = none ∧
    (chatStep l b o).ledgerReads = [] ∧
    (chatStep l b o).ledger = l := by
  obtain ⟨tree, hparse⟩ := chatSchemaParse_error_of b h
  refine ⟨?_, ⟨tree, ?_⟩, ?_, ?_, ?_⟩ <;> simp [chatStep, hparse]

/-- C4 witness: empty prompt with a valid UUID. -/
theorem chat_validation_failure_400_witness :
    (chatStep [] ⟨some (""), some ("123e4567-e89b-12d3-a456-426614174000")⟩
        ProviderResult.err).response.status = 400 ∧
    (∃ tree,
      (chatStep [] ⟨some (""), some ("123e4567-e89b-12d3-a456-426614174000")⟩
        ProviderResult.err).response.body = ResponseBody.issues tree) ∧
    (chatStep [] ⟨some (""), some ("123e4567-e89b-12d3-a456-426614174000")⟩
        ProviderResult.err).providerCall = none ∧
    (chatStep [] ⟨some (""), some ("123e4567-e89b-12d3-a456-426614174000")⟩
        ProviderResult.err).ledgerReads = [] ∧
    (chatStep [] ⟨some (""), some ("123e4567-e89b-12d3-a456-426614174000")⟩
        ProviderResult.err).ledger = [] :=
  chat_validation_failure_400 []
    ⟨some (""), some ("123e4567-e89b-12d3-a456-426614174000")⟩ ProviderResult.err
    (Or.inr (Or.inl ⟨"", rfl, rfl⟩))

/-- C5 counterexample: a prompt of 1001 characters whose excess over 1000 is
only a trailing space passes validation and reaches the provider — the
endpoint answers 200, not 400, because the schema trims before checking the
maximum length. -/
def paddedPrompt : String := String.mk (List.replicate 1000 ('a') ++ [' '])

/-- C5 counterexample theorem: the claim fails at `paddedPrompt`. -/
theorem overlong_padded_prompt_not_rejected :
    1000 < paddedPrompt.length ∧
    (chatStep [] ⟨some paddedPrompt, some ("123e4567-e89b-12d3-a456-426614174000")⟩
        (ProviderResult.ok ⟨"r1", "Hi"⟩)).response.status = 200 ∧
    (chatStep [] ⟨some paddedPrompt, some ("123e4567-e89b-12d3-a456-426614174000")⟩
        (ProviderResult.ok ⟨"r1", "Hi"⟩)).providerCall ≠ none := by
  refine ⟨by decide, ?_, ?_⟩ <;> decide

/-- C5 amended: every request whose prompt, after trimming, exceeds 1000
characters is rejected with a 400 validation error and the provider is never
invoked. -/
theorem overlong_trimmed_prompt_rejected (l : Ledger) (b : ChatRequestBody)
    (p : String) (o : ProviderResult)
    (hp : b.prompt = some p) (hlen : 1000 < (jsTrim p).length) :
    (chatStep l b o).response.status = 400 ∧
    (∃ tree, (chatStep l b o).response.body = ResponseBody.issues tree) ∧
    (chatStep l b o).providerCall = none := by
  obtain ⟨tree, hparse⟩ := chatSchemaParse_error_of_promptIssues b (by
    rw [hp]
    intro hnil
    have := (promptIssues_eq_nil p).mp hnil
    omega)
  refine ⟨?_, ⟨tree, ?_⟩, ?_⟩ <;> simp [chatStep, hparse]

/-- C5 amended witness: 1001 non-whitespace characters are rejected. -/
theorem overlong_trimmed_prompt_rejected_witness :
    (chatStep [] ⟨some (String.mk (List.replicate 1001 ('a'))),
        some ("123e4567-e89b-12d3-a456-426614174000")⟩
        ProviderResult.err).response.status = 400 ∧
    (∃ tree,
      (chatStep [] ⟨some (String.mk (List.replicate 1001 ('a'))),
          some ("123e4567-e89b-12d3-a456-426614174000")⟩
          ProviderResult.err).response.body = ResponseBody.issues tree) ∧
    (chatStep [] ⟨some (String.mk (List.replicate 1001 ('a'))),
        some ("123e4567-e89b-12d3-a456-426614174000")⟩
        ProviderResult.err).providerCall = none :=
  overlong_trimmed_prompt_rejected []
    ⟨some (String.mk (List.replicate 1001 ('a'))),
      some ("123e4567-e89b-12d3-a456-426614174000")⟩
    (String.mk (List.replicate 1001 ('a'))) ProviderResult.err rfl (by decide)

/-- C6: Ledger invariants — after any sequence of sets starting empty, keys
are unique and `get` returns the most recent value set for the key (absent
when never set); a set leaves every other key unchanged; and after any run of
chat requests starting from an empty ledger, each conversation holds the
response id of its most recent successful provider call. -/
theorem conversation_ledger_invariants (ops : List (String × String)) (l : Ledger)
    (id id' v c : String) (trace : List (ChatRequestBody × ProviderResult))
    (h : id' ≠ id) :
    keysNodup (applySets ops []) ∧
    ledgerGet (applySets ops []) id = lastSetValue id ops ∧
    ledgerGet (ledgerSet l id v) id = some v ∧
    ledgerGet (ledgerSet l id v) id' = ledgerGet l id' ∧
    ledgerGet (runTrace [] trace) c = lastSuccessId c trace := by
  refine ⟨keysNodup_applySets ops [] keysNodup_nil, ?_, ledgerGet_set_same l id v,
    ledgerGet_set_other l id id' v h, ?_⟩
  · rw [applySets_get]
    cases lastSetValue id ops <;> simp [ledgerGet]
  · rw [runTrace_get]
    cases lastSuccessId c trace <;> simp [ledgerGet]

/-- C6 witness. -/
theorem conversation_ledger_invariants_witness :
    keysNodup (applySets [("a", "1"), ("b", "2"), ("a", "3")] []) ∧
    ledgerGet (applySets [("a", "1"), ("b", "2"), ("a", "3")] []) ("a") =
      lastSetValue ("a") [("a", "1"), ("b", "2"), ("a", "3")] ∧
    ledgerGet (ledgerSet [("x", "9")] ("a") ("7")) ("a") = some ("7") ∧
    ledgerGet (ledgerSet [("x", "9")] ("a") ("7")) ("x") =
      ledgerGet [("x", "9")] ("x") ∧
    ledgerGet (runTrace [] []) ("a") = lastSuccessId ("a") [] :=
  conversation_ledger_invariants [("a", "1"), ("b", "2"), ("a", "3")]
    [("x", "9")] ("a") ("x") ("7") ("a") [] (by decide)

/-- C7: for every request that passes validation, the prompt forwarded to the
provider is the raw request-body prompt — the handler destructures `req.body`,
not the parsed (trimmed) validation result. -/
theorem raw_prompt_forwarded (l : Ledger) (p c : String) (o : ProviderResult)
    (h1 : 1 ≤ (jsTrim p).length) (h2 : (jsTrim p).length ≤ 1000)
    (h3 : isValidUUID c = true) :
    ∃ req, (chatStep l ⟨some p, some c⟩ o).providerCall = some req ∧
      req.input = p := by
  have hparse := chatSchemaParse_ok p c h1 h2 h3
  cases o with
  | ok r =>
    refine ⟨⟨"gpt-4o-mini", p, 1 / 5, 50, ledgerGet l c⟩, ?_, rfl⟩
    simp [chatStep, hparse]
  | err =>
    refine ⟨⟨"gpt-4o-mini", p, 1 / 5, 50, ledgerGet l c⟩, ?_, rfl⟩
    simp [chatStep, hparse]

/-- C7 witness: a prompt with surrounding whitespace, validated against its
trimmed form, is still forwarded with the whitespace intact. -/
theorem raw_prompt_forwarded_witness :
    jsTrim (" hi ") ≠ (" hi ") ∧
    (∃ req,
      (chatStep [] ⟨some (" hi "), some ("123e4567-e89b-12d3-a456-426614174000")⟩
        ProviderResult.err).providerCall = some req ∧ req.input = (" hi ")) :=
  ⟨by decide, raw_prompt_forwarded [] (" hi ")
    ("123e4567-e89b-12d3-a456-426614174000") ProviderResult.err
    (by decide) (by decide) (by decide)⟩

/-- C8: every chat-surface submission clears the typing indicator on exit,
success or failure; on failure the optimistically appended user turn stays in
the transcript and a visible error state is shown. -/
theorem chat_surface_submit_cleanup (s : ChatSurfaceState) (prompt : String)
    (r : RelayResult) :
    (onSubmit s prompt r).isAssistantTyping = false ∧
    (r = RelayResult.err →
      (onSubmit s prompt r).messages = s.messages ++ [⟨Role.user, prompt⟩] ∧
      (onSubmit s prompt r).error =
        some ("Something went wrong, try again later")) := by
  cases r <;> simp [onSubmit]

/-- C8 witness. -/
theorem chat_surface_submit_cleanup_witness :
    (onSubmit ⟨[], false, none⟩ ("Hello") RelayResult.err).isAssistantTyping =
      false ∧
    (onSubmit ⟨[], false, none⟩ ("Hello") RelayResult.err).messages =
      [] ++ [⟨Role.user, ("Hello")⟩] ∧
    (onSubmit ⟨[], false, none⟩ ("Hello") RelayResult.err).error =
      some ("Something went wrong, try again later") :=
  ⟨(chat_surface_submit_cleanup ⟨[], false, none⟩ ("Hello") RelayResult.err).1,
    (chat_surface_submit_cleanup ⟨[], false, none⟩ ("Hello") RelayResult.err).2 rfl⟩

/-- C9: a keypress triggers a submission exactly when the key is Enter and
shift is not held; Enter with shift neither submits nor prevents the default
behaviour (which, in a textarea, inserts a literal newline). -/
theorem enter_submits_shift_enter_does_not (e : KeyEvent) :
    ((handleKeyDown e).submitted = true ↔ e.key = "Enter" ∧ e.shiftKey = false) ∧
    (e.shiftKey = true →
      (handleKeyDown e).submitted = false ∧
      (handleKeyDown e).defaultPrevented = false) := by
  by_cases h : e.key = "Enter" ∧ e.shiftKey = false
  · obtain ⟨h1, h2⟩ := h
    simp [handleKeyDown, h1, h2]
  · simp [handleKeyDown, h]

/-- C9 witness: shift+Enter does not submit and leaves the default alone. -/
theorem enter_submits_shift_enter_does_not_witness :
    (handleKeyDown ⟨"Enter", true⟩).submitted = false ∧
    (handleKeyDown ⟨"Enter", true⟩).defaultPrevented = false :=
  (enter_submits_shift_enter_does_not ⟨"Enter", true⟩).2 rfl

/-- C10: the health endpoint answers 200 with `(status "ok")` and leaves the
server state untouched, also immediately after a failed chat request. -/
theorem health_ok_no_side_effects (l : Ledger) (b : ChatRequestBody) :
    healthHandler l = (⟨200, ResponseBody.statusJson ("ok")⟩, l) ∧
    (healthHandler (chatStep l b ProviderResult.err).ledger).1 =
      ⟨200, ResponseBody.statusJson ("ok")⟩ ∧
    (healthHandler (chatStep l b ProviderResult.err).ledger).2 =
      (chatStep l b ProviderResult.err).ledger :=
  ⟨rfl, rfl, rfl⟩
